import Mathlib

/-!
Shallow embedding of `modules/openthread/platform/openthread.c` (the Zephyr
OpenThread platform glue) and proofs about it.

The wrapped OpenThread engine is an external black box: its operations
(`otThreadSetNetworkName`, `otThreadSetEnabled`, `otJoinerStart`, ...) are
modelled by an oracle structure recording the status each call would return,
and every embedded function additionally returns the trace of calls it makes,
so that ordering, short-circuiting and skip behaviour can be stated exactly.

Error-code conventions follow the C source: OpenThread `otError` values are
naturals with `OT_ERROR_NONE = 0`; Zephyr errno returns are integers, with
`-EINVAL = -22`, `-EIO = -5`, `-EALREADY = -120` as in the Zephyr headers.
-/

namespace OTShim

def OT_ERROR_NONE : Nat := 0

def OT_ERROR_INVALID_STATE : Nat := 13

/-- A call into the engine / platform layer, used as a trace event. -/
inductive Call where
  | lockGate
  | unlockGate
  | isCommissioned
  | joinerStart
  | setNetworkName
  | setChannel
  | setPanId
  | setXPanId
  | setNetworkKey
  | setEnabled (enabled : Bool)
  | taskletStep
  | processDrivers
deriving DecidableEq, Repr

/-! ## Subscriber Registry

A `struct openthread_state_changed_callback` is identified by its storage
address (`addr`); `cb` models its `openthread_state_changed_cb` function
pointer (`none` = NULL).  The registry `sys_slist_t openthread_state_change_cbs`
is a list of records in insertion order.  A NULL record pointer argument is
`Option.none`. -/

structure StateCb where
  addr : Nat
  cb : Option Nat
deriving DecidableEq, Repr

/-- `openthread_state_change_callback_register` (openthread.c:182-193):
`CHECKIF(cb == NULL || cb->openthread_state_changed_cb == NULL) return -EINVAL;`
then `sys_slist_append` under the mutex and return 0. -/
def openthread_state_change_callback_register (cb : Option StateCb)
    (reg : List StateCb) : Int × List StateCb :=
  match cb with
  | none => (-22, reg)
  | some r =>
    match r.cb with
    | none => (-22, reg)
    | some _ => (0, reg ++ [r])

/-- `sys_slist_find_and_remove`: remove the first node whose address matches,
returning whether a node was removed and the resulting list. -/
def findAndRemove (a : Nat) : List StateCb → Bool × List StateCb
  | [] => (false, [])
  | r :: rs =>
    if r.addr = a then (true, rs)
    else
      let p := findAndRemove a rs
      (p.1, r :: p.2)

/-- `openthread_state_change_callback_unregister` (openthread.c:207-224):
`CHECKIF(cb == NULL) return -EINVAL;`, `sys_slist_find_and_remove` under the
mutex, `-EALREADY` when nothing was removed, else 0. -/
def openthread_state_change_callback_unregister (cb : Option StateCb)
    (reg : List StateCb) : Int × List StateCb :=
  match cb with
  | none => (-22, reg)
  | some r =>
    let p := findAndRemove r.addr reg
    if p.1 then (0, p.2) else (-120, p.2)

/-- `ot_state_changed_handler` (openthread.c:162-180): walk the registry in
order and invoke every entry whose function pointer is non-NULL.  The result
is the list of addresses whose callback is invoked, in invocation order. -/
def ot_state_changed_handler (reg : List StateCb) : List Nat :=
  (reg.filter (fun r => r.cb.isSome)).map (fun r => r.addr)

/-! ## Engine oracle and configuration -/

/-- Oracle for the engine calls made by `openthread_run` / `openthread_stop` /
`ot_joiner_start_handler`: the status each engine operation would return,
plus whether the stored dataset is commissioned. -/
structure Engine where
  commissioned : Bool
  joinerStartErr : Nat
  setNetworkNameErr : Nat
  setChannelErr : Nat
  setPanIdErr : Nat
  setXPanIdErr : Nat
  setNetworkKeyErr : Nat
  setEnabledErr : Nat
  disableErr : Nat
deriving DecidableEq, Repr

/-- Compile-time configuration choices that steer the control flow:
`CONFIG_OPENTHREAD_JOINER_AUTOSTART`, the `CONFIG_OPENTHREAD_NETWORKKEY`
string (`strlen` gates the key setter), `CONFIG_OPENTHREAD_COPROCESSOR`. -/
structure Config where
  joinerAutostart : Bool
  networkKey : String
  coprocessor : Bool
deriving Repr

/-- The default-configuration setter chain of `openthread_run`
(openthread.c:334-375): network name, channel, PAN ID, extended PAN ID in
fixed order, each `goto exit` on failure; the network key only when
`strlen(OT_NETWORKKEY)` is non-zero.  Returns the resulting `otError` and
the setter-call trace. -/
def defaultConfigSetters (cfg : Config) (e : Engine) : Nat × List Call :=
  if e.setNetworkNameErr ≠ OT_ERROR_NONE then
    (e.setNetworkNameErr, [Call.setNetworkName])
  else if e.setChannelErr ≠ OT_ERROR_NONE then
    (e.setChannelErr, [Call.setNetworkName, Call.setChannel])
  else if e.setPanIdErr ≠ OT_ERROR_NONE then
    (e.setPanIdErr, [Call.setNetworkName, Call.setChannel, Call.setPanId])
  else if e.setXPanIdErr ≠ OT_ERROR_NONE then
    (e.setXPanIdErr,
     [Call.setNetworkName, Call.setChannel, Call.setPanId, Call.setXPanId])
  else if cfg.networkKey.length ≠ 0 then
    (e.setNetworkKeyErr,
     [Call.setNetworkName, Call.setChannel, Call.setPanId, Call.setXPanId,
      Call.setNetworkKey])
  else
    (OT_ERROR_NONE,
     [Call.setNetworkName, Call.setChannel, Call.setPanId, Call.setXPanId])

/-- `openthread_run` (openthread.c:311-390).  Lock; if the dataset is
commissioned skip configuration; else if the joiner autostart policy is on,
start the joiner and `goto exit` (no enable); else run the default setter
chain, any failure jumping to exit.  Paths that fall through call
`otThreadSetEnabled(true)`, whose error is logged but still held in `error`.
Exit: unlock and return `error == OT_ERROR_NONE ? 0 : -EIO`. -/
def openthread_run (cfg : Config) (e : Engine) : Int × List Call :=
  if e.commissioned then
    (if e.setEnabledErr = OT_ERROR_NONE then 0 else -5,
     [Call.lockGate, Call.isCommissioned, Call.setEnabled true, Call.unlockGate])
  else if cfg.joinerAutostart then
    (if e.joinerStartErr = OT_ERROR_NONE then 0 else -5,
     [Call.lockGate, Call.isCommissioned, Call.joinerStart, Call.unlockGate])
  else
    let p := defaultConfigSetters cfg e
    if p.1 ≠ OT_ERROR_NONE then
      (-5, [Call.lockGate, Call.isCommissioned] ++ p.2 ++ [Call.unlockGate])
    else
      (if e.setEnabledErr = OT_ERROR_NONE then 0 else -5,
       [Call.lockGate, Call.isCommissioned] ++ p.2 ++
        [Call.setEnabled true, Call.unlockGate])

/-- `ot_joiner_start_handler` (openthread.c:143-160): on `OT_ERROR_NONE` call
`otThreadSetEnabled(true)` (its failure only logged); on any other error only
log, no enable and no retry.  Result: the engine calls the handler makes. -/
def ot_joiner_start_handler (error : Nat) : List Call :=
  if error = OT_ERROR_NONE then [Call.setEnabled true] else []

/-- `openthread_stop` (openthread.c:392-410): coprocessor builds return 0
immediately; otherwise lock, `otThreadSetEnabled(false)` (only
`OT_ERROR_INVALID_STATE` is even looked at, for a debug log), unlock,
return 0 unconditionally. -/
def openthread_stop (cfg : Config) (e : Engine) : Int × List Call :=
  if cfg.coprocessor then (0, [])
  else (0, [Call.lockGate, Call.setEnabled false, Call.unlockGate])

/-! ## openthread_init and the Gate

`openthread_init` (openthread.c:232-309) takes `openthread_mutex_lock()` at
line 248 and releases it at line 300.  We track whether the Gate is still
held by the initializing context at each return. -/

/-- Inputs steering `openthread_init`: the re-initialization guard
(`openthread_instance != NULL`), the coprocessor/NAT64 build options, and the
outcomes of the fallible calls on the non-coprocessor path
(`otIp4CidrFromString`, `otNat64SetIp4Cidr`, `otSetStateChangedCallback`). -/
structure InitEnv where
  alreadyInitialized : Bool
  coprocessor : Bool
  nat64 : Bool
  cidrParseOk : Bool
  cidrSetOk : Bool
  stateChangedCbErr : Nat
deriving DecidableEq, Repr

/-- Result of `openthread_init`: the boolean it returns, and whether the Gate
taken at line 248 is still held when it returns. -/
structure InitOutcome where
  ok : Bool
  gateHeld : Bool
deriving DecidableEq, Repr

/-- Tail of `openthread_init`'s non-coprocessor branch (openthread.c:291-300):
`otSetStateChangedCallback` failure returns `false` directly (the Gate is
still held); success falls through to `openthread_mutex_unlock()` at line 300
and returns `true`. -/
def openthread_init_tail (env : InitEnv) : InitOutcome :=
  if env.stateChangedCbErr ≠ OT_ERROR_NONE then ⟨false, true⟩
  else ⟨true, false⟩

/-- `openthread_init` (openthread.c:232-309).  The guard at line 241 returns
`true` before the lock is taken.  Otherwise the Gate is acquired at line 248;
the coprocessor branch has no failing return and reaches the unlock; the
non-coprocessor branch returns `false` from inside the locked region on NAT64
CIDR parse failure (line 284), NAT64 CIDR set failure (line 280), and
state-changed-callback registration failure (line 296) — none of these paths
executes the unlock at line 300. -/
def openthread_init (env : InitEnv) : InitOutcome :=
  if env.alreadyInitialized then ⟨true, false⟩
  else
    if env.coprocessor then ⟨true, false⟩
    else
      if env.nat64 then
        if env.cidrParseOk then
          if env.cidrSetOk then openthread_init_tail env
          else ⟨false, true⟩
        else ⟨false, true⟩
      else openthread_init_tail env

/-! ## Work Coalescer (spec-modelled)

Modelled from the spec: the deferred-work primitive used by
`otTaskletsSignalPending` (`k_work_submit_to_queue` and the work-queue
thread, Zephyr kernel code not present in these sources).  Per the spec
(§2.3, §4.3), it is "a single-slot coalescing task scheduler backed by one
dedicated worker": re-submitting while the item is scheduled-but-not-run is
a no-op; submitting while the worker is running the item schedules exactly
one further run; activations never overlap. -/

inductive WorkState where
  /-- no activation scheduled, worker idle -/
  | idle
  /-- one activation scheduled, worker not yet running it -/
  | queued
  /-- the worker is running a pass, no further activation scheduled -/
  | running
  /-- the worker is running a pass and one further activation is scheduled -/
  | runningQueued
deriving DecidableEq, Repr

/-- `k_work_submit_to_queue` as described by the spec: schedule exactly one
future activation if one is not already scheduled; never blocks. -/
def submitWork : WorkState → WorkState
  | WorkState.idle => WorkState.queued
  | WorkState.queued => WorkState.queued
  | WorkState.running => WorkState.runningQueued
  | WorkState.runningQueued => WorkState.runningQueued

/-- `otTaskletsSignalPending` (openthread.c:195-200): submits the single work
item to the OpenThread work queue. -/
def otTaskletsSignalPending (s : WorkState) : WorkState := submitWork s

/-- `otSysEventSignalPending` (openthread.c:202-205): forwards to
`otTaskletsSignalPending`. -/
def otSysEventSignalPending (s : WorkState) : WorkState :=
  otTaskletsSignalPending s

/-- The worker finishing its current pass: a pending re-submission becomes a
scheduled activation; otherwise the worker goes idle. -/
def finishActivation : WorkState → WorkState
  | WorkState.running => WorkState.idle
  | WorkState.runningQueued => WorkState.queued
  | s => s

/-- Rank used to show the drain of the work-queue state terminates. -/
def wsRank : WorkState → Nat
  | WorkState.idle => 0
  | WorkState.running => 1
  | WorkState.queued => 2
  | WorkState.runningQueued => 3

/-- Number of future worker activations (starts of a pass) that occur from
state `s` if no further signal arrives: a scheduled activation starts
(counted) and its pass then finishes; a running pass finishes first. -/
def activationsFrom (s : WorkState) : Nat :=
  match s with
  | WorkState.idle => 0
  | WorkState.running => activationsFrom WorkState.idle
  | WorkState.queued => 1 + activationsFrom WorkState.running
  | WorkState.runningQueued => activationsFrom WorkState.queued
termination_by wsRank s
decreasing_by
  all_goals simp [wsRank]

/-- `n` successive `signal_pending_work()` calls with no intervening worker
run. -/
def signalN : Nat → WorkState → WorkState
  | 0, s => s
  | n + 1, s => signalN n (otTaskletsSignalPending s)

/-! ## Worker Loop

`openthread_process` (openthread.c:128-141) drives the opaque engine through
`otTaskletsArePending` / `otTaskletsProcess`.  The engine's tasklet queue is
modelled as a list of tasklets where processing a tasklet may post any finite
number of further tasklets (each again arbitrary), so that work produced
while processing is represented. -/

/-- An engine tasklet, modelled by the tasklets it posts while executing. -/
inductive Tasklet where
  | spawn : List Tasklet → Tasklet

mutual

def taskletSize : Tasklet → Nat
  | Tasklet.spawn ts => 1 + taskletQueueSize ts

def taskletQueueSize : List Tasklet → Nat
  | [] => 0
  | t :: ts => taskletSize t + taskletQueueSize ts

end

/-- Engine state visible to the Worker Loop: the pending-tasklet queue. -/
structure OtInstance where
  tasklets : List Tasklet

/-- `otTaskletsArePending`: the engine reports whether work is pending. -/
def otTaskletsArePending (i : OtInstance) : Bool := !i.tasklets.isEmpty

/-- `otTaskletsProcess`: run the queued tasklets; tasklets posted during the
run are pending afterwards.  (On the empty queue it is a no-op.) -/
def otTaskletsProcess (i : OtInstance) : OtInstance :=
  match i.tasklets with
  | [] => i
  | Tasklet.spawn produced :: rest => ⟨rest ++ produced⟩

theorem taskletQueueSize_append (a b : List Tasklet) :
    taskletQueueSize (a ++ b) = taskletQueueSize a + taskletQueueSize b := by
  induction a with
  | nil => simp [taskletQueueSize]
  | cons t ts ih => simp [taskletQueueSize, ih]; omega

/-- The `while (otTaskletsArePending) otTaskletsProcess;` loop of
`openthread_process`, returning the engine state at loop exit and the number
of `otTaskletsProcess` calls made. -/
def drainTasklets (q : List Tasklet) : List Tasklet × Nat :=
  match q with
  | [] => ([], 0)
  | Tasklet.spawn produced :: rest =>
    let p := drainTasklets (rest ++ produced)
    (p.1, p.2 + 1)
termination_by taskletQueueSize q
decreasing_by
  simp [taskletQueueSize, taskletSize, taskletQueueSize_append]
  omega

/-- `openthread_process` (openthread.c:128-141): lock the Gate, drain the
tasklet loop, `otSysProcessDrivers` once, unlock.  Returns the engine state
at the end of the pass and the trace of the pass. -/
def openthread_process (i : OtInstance) : OtInstance × List Call :=
  let p := drainTasklets i.tasklets
  (⟨p.1⟩,
   Call.lockGate :: (List.replicate p.2 Call.taskletStep ++
    [Call.processDrivers, Call.unlockGate]))

/-! ## Registry lemmas -/

theorem findAndRemove_sublist (a : Nat) (reg : List StateCb) :
    List.Sublist (findAndRemove a reg).2 reg := by
  induction reg with
  | nil => simp [findAndRemove]
  | cons r rs ih =>
    by_cases h : r.addr = a
    · simp [findAndRemove, h]
    · simpa [findAndRemove, h] using ih.cons₂ r

theorem findAndRemove_not_found (a : Nat) (reg : List StateCb)
    (h : a ∉ reg.map (fun x => x.addr)) : findAndRemove a reg = (false, reg) := by
  induction reg with
  | nil => simp [findAndRemove]
  | cons r rs ih =>
    simp only [List.map_cons, List.mem_cons] at h
    push_neg at h
    have hr : r.addr ≠ a := fun hc => h.1 hc.symm
    simp [findAndRemove, hr, ih h.2]

theorem findAndRemove_found (a : Nat) (reg : List StateCb)
    (h : a ∈ reg.map (fun x => x.addr)) : (findAndRemove a reg).1 = true := by
  induction reg with
  | nil => simp at h
  | cons r rs ih =>
    by_cases hr : r.addr = a
    · simp [findAndRemove, hr]
    · simp only [List.map_cons, List.mem_cons] at h
      rcases h with h | h
      · exact absurd h.symm hr
      · simp [findAndRemove, hr, ih h]

theorem findAndRemove_removes (a : Nat) (reg : List StateCb)
    (hnd : (reg.map (fun x => x.addr)).Nodup) :
    a ∉ (findAndRemove a reg).2.map (fun x => x.addr) := by
  induction reg with
  | nil => simp [findAndRemove]
  | cons r rs ih =>
    simp only [List.map_cons, List.nodup_cons] at hnd
    by_cases hr : r.addr = a
    · subst hr
      simpa [findAndRemove] using hnd.1
    · have hrec := ih hnd.2
      simp only [findAndRemove, hr, if_false]
      simp only [List.map_cons, List.mem_cons]
      push_neg
      exact ⟨fun hc => hr hc.symm, hrec⟩

theorem ot_state_changed_handler_subset (a : Nat) (reg : List StateCb)
    (h : a ∈ ot_state_changed_handler reg) : a ∈ reg.map (fun x => x.addr) := by
  unfold ot_state_changed_handler at h
  rcases List.mem_map.mp h with ⟨r, hr, hra⟩
  exact hra ▸ List.mem_map_of_mem _ (List.mem_of_mem_filter hr)

/-- A subscriber record at address 7 with a non-null notify function. -/
def dupRec : StateCb := ⟨7, some 1⟩

/-- C6 counterexample: registering a record whose address is already a
member of the Registry makes that address appear twice —
`openthread_state_change_callback_register` appends unconditionally with no
membership check, so the at-most-once invariant is not preserved by
`register` on an already-registered record. -/
theorem register_duplicate_breaks_uniqueness :
    (((openthread_state_change_callback_register (some dupRec) [dupRec]).2.map
        (fun x => x.addr)).count 7) = 2 := by decide

/-- C6 (amended): provided the record's address is not already a member,
`register` preserves the at-most-once invariant, and `unregister` always
preserves it (it never adds entries). -/
theorem registry_uniqueness_preservation (r : StateCb) (cb : Option StateCb)
    (reg : List StateCb) (hnd : (reg.map (fun x => x.addr)).Nodup) :
    (r.addr ∉ reg.map (fun x => x.addr) →
      ((openthread_state_change_callback_register (some r) reg).2.map
        (fun x => x.addr)).Nodup) ∧
    ((openthread_state_change_callback_unregister cb reg).2.map
        (fun x => x.addr)).Nodup := by
  constructor
  · intro hmem
    match hcb : r.cb with
    | none => simpa [openthread_state_change_callback_register, hcb] using hnd
    | some f =>
      simp only [openthread_state_change_callback_register, hcb, List.map_append,
        List.map_cons, List.map_nil]
      exact List.Nodup.append hnd (List.nodup_singleton _)
        (by simpa [List.disjoint_singleton] using hmem)
  · match cb with
    | none => simpa [openthread_state_change_callback_unregister] using hnd
    | some r' =>
      have hsub : List.Sublist
          ((openthread_state_change_callback_unregister (some r') reg).2) reg := by
        by_cases hf : (findAndRemove r'.addr reg).1
        · simpa [openthread_state_change_callback_unregister, hf] using
            findAndRemove_sublist r'.addr reg
        · simpa [openthread_state_change_callback_unregister, hf] using
            findAndRemove_sublist r'.addr reg
      exact List.Nodup.sublist (hsub.map (fun x => x.addr)) hnd

/-- C6 amended witness at a concrete input. -/
theorem registry_uniqueness_preservation_witness :
    (([] : List StateCb).map (fun x => x.addr)).Nodup ∧
    ((openthread_state_change_callback_register (some dupRec) []).2.map
      (fun x => x.addr)).Nodup :=
  ⟨by decide,
   (registry_uniqueness_preservation dupRec none [] (by decide)).1 (by decide)⟩

/-- C7: `register` fails with `-EINVAL` exactly when the record pointer or
its notify function pointer is NULL; a failed registration leaves the
Registry unchanged; a valid record is appended with return 0. -/
theorem register_invalid_argument_spec (cb : Option StateCb) (reg : List StateCb) :
    ((openthread_state_change_callback_register cb reg).1 = -22 ↔
      cb = none ∨ ∃ r, cb = some r ∧ r.cb = none) ∧
    ((openthread_state_change_callback_register cb reg).1 = -22 →
      (openthread_state_change_callback_register cb reg).2 = reg) ∧
    (∀ r, cb = some r → r.cb ≠ none →
      openthread_state_change_callback_register cb reg = (0, reg ++ [r])) := by
  match cb with
  | none => simp [openthread_state_change_callback_register]
  | some r =>
    match hcb : r.cb with
    | none => simp [openthread_state_change_callback_register, hcb]
    | some f =>
      refine ⟨?_, ?_, ?_⟩
      · simp [openthread_state_change_callback_register, hcb]
      · simp [openthread_state_change_callback_register, hcb]
      · intro r' hr' hcb'
        cases hr'
        simp [openthread_state_change_callback_register, hcb]

/-- C7 witness at a concrete input. -/
theorem register_invalid_argument_spec_witness :
    openthread_state_change_callback_register (some dupRec) [] = (0, [dupRec]) :=
  (register_invalid_argument_spec (some dupRec) []).2.2 dupRec rfl (by decide)

/-- C8: `unregister(NULL)` fails with `-EINVAL`; unregistering a record whose
address is not a member fails with `-EALREADY` and leaves the Registry
unchanged; unregistering a member returns 0 and (under the Registry's
at-most-once invariant) a subsequent notification pass does not invoke that
record. -/
theorem unregister_spec (cb : Option StateCb) (reg : List StateCb) :
    (cb = none → openthread_state_change_callback_unregister cb reg = (-22, reg)) ∧
    (∀ r, cb = some r → r.addr ∉ reg.map (fun x => x.addr) →
      openthread_state_change_callback_unregister cb reg = (-120, reg)) ∧
    (∀ r, cb = some r → r.addr ∈ reg.map (fun x => x.addr) →
      (openthread_state_change_callback_unregister cb reg).1 = 0 ∧
      ((reg.map (fun x => x.addr)).Nodup →
        r.addr ∉ ot_state_changed_handler
          (openthread_state_change_callback_unregister cb reg).2)) := by
  refine ⟨?_, ?_, ?_⟩
  · intro h
    subst h
    simp [openthread_state_change_callback_unregister]
  · intro r hr hmem
    subst hr
    simp [openthread_state_change_callback_unregister,
      findAndRemove_not_found r.addr reg hmem]
  · intro r hr hmem
    subst hr
    have hfound := findAndRemove_found r.addr reg hmem
    constructor
    · simp [openthread_state_change_callback_unregister, hfound]
    · intro hnd hinv
      have h2 : (openthread_state_change_callback_unregister (some r) reg).2 =
          (findAndRemove r.addr reg).2 := by
        simp [openthread_state_change_callback_unregister, hfound]
      rw [h2] at hinv
      exact findAndRemove_removes r.addr reg hnd
        (ot_state_changed_handler_subset _ _ hinv)

/-- C8 witness at a concrete input. -/
theorem unregister_spec_witness :
    (openthread_state_change_callback_unregister (some dupRec) [dupRec]).1 = 0 ∧
    (7 ∉ ot_state_changed_handler
      (openthread_state_change_callback_unregister (some dupRec) [dupRec]).2) :=
  ⟨((unregister_spec (some dupRec) [dupRec]).2.2 dupRec rfl (by decide)).1,
   ((unregister_spec (some dupRec) [dupRec]).2.2 dupRec rfl (by decide)).2 (by decide)⟩

/-! ## Bring-Up Sequencer theorems -/

/-- An engine that is already commissioned and whose enable call fails. -/
def enableFailEngine : Engine := ⟨true, 0, 0, 0, 0, 0, 0, 1, 0⟩

/-- An engine that is not commissioned and whose calls all succeed. -/
def allOkEngine : Engine := ⟨false, 0, 0, 0, 0, 0, 0, 0, 0⟩

/-- Configuration with auto-join off, empty network key, no coprocessor. -/
def plainConfig : Config := ⟨false, "", false⟩

/-- Configuration with auto-join on. -/
def joinConfig : Config := ⟨true, "", false⟩

/-- C1 counterexample: with the engine already commissioned and the enable
operation failing, `openthread_run` does not return the success status — the
enable error is kept in `error` and the exit path maps it to `-EIO`. -/
theorem run_enable_failure_fails_startup :
    (openthread_run plainConfig enableFailEngine).1 ≠ 0 ∧
    Call.setEnabled true ∈ (openthread_run plainConfig enableFailEngine).2 := by
  decide

/-- C1 (amended): when the final enable step is reached (engine already
commissioned, or all default-configuration setters succeeded) and the enable
operation fails, the failure is logged and no prior configuration step is
rolled back — after the failed enable the only remaining action is releasing
the Gate — but `openthread_run` returns the failure status `-EIO`, not
success. -/
theorem run_enable_failure_no_rollback (cfg : Config) (e : Engine)
    (hreach : e.commissioned = true ∨
      (e.commissioned = false ∧ cfg.joinerAutostart = false ∧
        (defaultConfigSetters cfg e).1 = OT_ERROR_NONE))
    (hfail : e.setEnabledErr ≠ OT_ERROR_NONE) :
    (openthread_run cfg e).1 = -5 ∧
    ∃ pre, (openthread_run cfg e).2 =
      pre ++ [Call.setEnabled true, Call.unlockGate] := by
  rcases hreach with hc | ⟨hc, hj, hs⟩
  · refine ⟨by simp [openthread_run, hc, hfail], ?_⟩
    exact ⟨[Call.lockGate, Call.isCommissioned], by simp [openthread_run, hc]⟩
  · refine ⟨by simp [openthread_run, hc, hj, hs, hfail], ?_⟩
    refine ⟨[Call.lockGate, Call.isCommissioned] ++ (defaultConfigSetters cfg e).2, ?_⟩
    simp [openthread_run, hc, hj, hs]

/-- C1 amended witness at a concrete input. -/
theorem run_enable_failure_no_rollback_witness :
    (openthread_run plainConfig enableFailEngine).1 = -5 ∧
    ∃ pre, (openthread_run plainConfig enableFailEngine).2 =
      pre ++ [Call.setEnabled true, Call.unlockGate] :=
  run_enable_failure_no_rollback plainConfig enableFailEngine
    (Or.inl (by decide)) (by decide)

/-- C4: an already-commissioned engine makes `openthread_run` skip every
setter and go directly to enable; otherwise, with auto-join off, the setters
run in the fixed order network name, channel, PAN ID, extended PAN ID, then
network key only when the configured key string is non-empty; the first
failing setter short-circuits everything that follows (including enable) and
the function returns `-EIO`. -/
theorem run_default_config_sequencing (cfg : Config) (e : Engine) :
    (e.commissioned = true →
      (openthread_run cfg e).2 =
        [Call.lockGate, Call.isCommissioned, Call.setEnabled true,
         Call.unlockGate]) ∧
    (e.commissioned = false → cfg.joinerAutostart = false →
      ((e.setNetworkNameErr ≠ OT_ERROR_NONE →
        openthread_run cfg e =
          (-5, [Call.lockGate, Call.isCommissioned, Call.setNetworkName,
                Call.unlockGate])) ∧
       (e.setNetworkNameErr = OT_ERROR_NONE → e.setChannelErr ≠ OT_ERROR_NONE →
        openthread_run cfg e =
          (-5, [Call.lockGate, Call.isCommissioned, Call.setNetworkName,
                Call.setChannel, Call.unlockGate])) ∧
       (e.setNetworkNameErr = OT_ERROR_NONE → e.setChannelErr = OT_ERROR_NONE →
        e.setPanIdErr ≠ OT_ERROR_NONE →
        openthread_run cfg e =
          (-5, [Call.lockGate, Call.isCommissioned, Call.setNetworkName,
                Call.setChannel, Call.setPanId, Call.unlockGate])) ∧
       (e.setNetworkNameErr = OT_ERROR_NONE → e.setChannelErr = OT_ERROR_NONE →
        e.setPanIdErr = OT_ERROR_NONE → e.setXPanIdErr ≠ OT_ERROR_NONE →
        openthread_run cfg e =
          (-5, [Call.lockGate, Call.isCommissioned, Call.setNetworkName,
                Call.setChannel, Call.setPanId, Call.setXPanId,
                Call.unlockGate])) ∧
       (e.setNetworkNameErr = OT_ERROR_NONE → e.setChannelErr = OT_ERROR_NONE →
        e.setPanIdErr = OT_ERROR_NONE → e.setXPanIdErr = OT_ERROR_NONE →
        cfg.networkKey.length ≠ 0 → e.setNetworkKeyErr ≠ OT_ERROR_NONE →
        openthread_run cfg e =
          (-5, [Call.lockGate, Call.isCommissioned, Call.setNetworkName,
                Call.setChannel, Call.setPanId, Call.setXPanId,
                Call.setNetworkKey, Call.unlockGate])) ∧
       (e.setNetworkNameErr = OT_ERROR_NONE → e.setChannelErr = OT_ERROR_NONE →
        e.setPanIdErr = OT_ERROR_NONE → e.setXPanIdErr = OT_ERROR_NONE →
        cfg.networkKey.length ≠ 0 → e.setNetworkKeyErr = OT_ERROR_NONE →
        openthread_run cfg e =
          ((if e.setEnabledErr = OT_ERROR_NONE then 0 else -5),
           [Call.lockGate, Call.isCommissioned, Call.setNetworkName,
            Call.setChannel, Call.setPanId, Call.setXPanId,
            Call.setNetworkKey, Call.setEnabled true, Call.unlockGate])) ∧
       (e.setNetworkNameErr = OT_ERROR_NONE → e.setChannelErr = OT_ERROR_NONE →
        e.setPanIdErr = OT_ERROR_NONE → e.setXPanIdErr = OT_ERROR_NONE →
        cfg.networkKey.length = 0 →
        openthread_run cfg e =
          ((if e.setEnabledErr = OT_ERROR_NONE then 0 else -5),
           [Call.lockGate, Call.isCommissioned, Call.setNetworkName,
            Call.setChannel, Call.setPanId, Call.setXPanId,
            Call.setEnabled true, Call.unlockGate])))) := by
  constructor
  · intro hc
    simp [openthread_run, hc]
  · intro hc hj
    refine ⟨?_, ?_, ?_, ?_, ?_, ?_, ?_⟩ <;>
      intros <;>
      simp_all [openthread_run, defaultConfigSetters, OT_ERROR_NONE]

/-- C4 witness at a concrete input. -/
theorem run_default_config_sequencing_witness :
    (openthread_run plainConfig enableFailEngine).2 =
      [Call.lockGate, Call.isCommissioned, Call.setEnabled true,
       Call.unlockGate] :=
  (run_default_config_sequencing plainConfig enableFailEngine).1 (by decide)

/-- C5: with the engine not commissioned and auto-join on,
`openthread_run` calls join-start exactly once, makes no enable call, and
returns 0 on synchronous join-start success and `-EIO` on failure; the
asynchronous completion handler makes exactly one enable call on success and
none (and no retry) on failure. -/
theorem run_joiner_sequencing (cfg : Config) (e : Engine) :
    (e.commissioned = false → cfg.joinerAutostart = true →
      ((openthread_run cfg e).2.count Call.joinerStart = 1 ∧
       (∀ b, Call.setEnabled b ∉ (openthread_run cfg e).2) ∧
       (openthread_run cfg e).1 =
         (if e.joinerStartErr = OT_ERROR_NONE then 0 else -5))) ∧
    ot_joiner_start_handler OT_ERROR_NONE = [Call.setEnabled true] ∧
    (∀ err, err ≠ OT_ERROR_NONE → ot_joiner_start_handler err = []) := by
  refine ⟨?_, by simp [ot_joiner_start_handler], ?_⟩
  · intro hc hj
    refine ⟨?_, ?_, ?_⟩
    · simp [openthread_run, hc, hj, List.count_cons]
    · intro b
      simp [openthread_run, hc, hj]
    · simp [openthread_run, hc, hj]
  · intro err herr
    simp [ot_joiner_start_handler, herr]

/-- C5 witness at a concrete input. -/
theorem run_joiner_sequencing_witness :
    (openthread_run joinConfig allOkEngine).2.count Call.joinerStart = 1 ∧
    Call.setEnabled true ∉ (openthread_run joinConfig allOkEngine).2 :=
  ⟨((run_joiner_sequencing joinConfig allOkEngine).1 (by decide) (by decide)).1,
   ((run_joiner_sequencing joinConfig allOkEngine).1 (by decide) (by decide)).2.1
     true⟩

/-- C10: `openthread_stop` returns 0 for every configuration and every engine
outcome (including any `disableErr`); coprocessor builds make no engine call
at all, and other builds perform exactly lock, disable, unlock. -/
theorem stop_always_succeeds (cfg : Config) (e : Engine) :
    (openthread_stop cfg e).1 = 0 ∧
    (cfg.coprocessor = true → (openthread_stop cfg e).2 = []) ∧
    (cfg.coprocessor = false →
      (openthread_stop cfg e).2 =
        [Call.lockGate, Call.setEnabled false, Call.unlockGate]) := by
  refine ⟨?_, ?_, ?_⟩ <;>
    first
      | (intro h; simp [openthread_stop, h])
      | (by_cases h : cfg.coprocessor <;> simp [openthread_stop, h])

/-- C10 witness at a concrete input. -/
theorem stop_always_succeeds_witness :
    (openthread_stop ⟨false, "", true⟩ allOkEngine).2 = [] :=
  (stop_always_succeeds ⟨false, "", true⟩ allOkEngine).2.1 rfl

/-- C9 evidence: `openthread_init` returns `false` with the Gate still held
on each early failure path — NAT64 CIDR parse failure, NAT64 CIDR set
failure, and state-changed-callback registration failure — while the
successful path releases the Gate before returning `true`. -/
theorem openthread_init_gate_leak :
    openthread_init ⟨false, false, true, false, true, OT_ERROR_NONE⟩ =
      ⟨false, true⟩ ∧
    openthread_init ⟨false, false, true, true, false, OT_ERROR_NONE⟩ =
      ⟨false, true⟩ ∧
    openthread_init ⟨false, false, false, true, true, 1⟩ = ⟨false, true⟩ ∧
    openthread_init ⟨false, false, false, true, true, OT_ERROR_NONE⟩ =
      ⟨true, false⟩ := by
  decide

/-! ## Work Coalescer theorems -/

theorem signalN_queued (n : Nat) :
    signalN n WorkState.queued = WorkState.queued := by
  induction n with
  | zero => rfl
  | succ m ih => simpa [signalN, otTaskletsSignalPending, submitWork] using ih

/-- C2: any `n ≥ 1` signals arriving before the worker next runs leave
exactly one activation scheduled (never `n`); and a signal arriving while a
worker pass is running is not lost — after the current pass completes exactly
one further activation follows. -/
theorem signal_coalescing (n : Nat) (h : 1 ≤ n) :
    signalN n WorkState.idle = WorkState.queued ∧
    activationsFrom (signalN n WorkState.idle) = 1 ∧
    otTaskletsSignalPending WorkState.running = WorkState.runningQueued ∧
    finishActivation (otTaskletsSignalPending WorkState.running) =
      WorkState.queued ∧
    activationsFrom (otTaskletsSignalPending WorkState.running) = 1 := by
  obtain ⟨m, rfl⟩ := Nat.exists_eq_add_of_le h
  have hq : signalN (1 + m) WorkState.idle = WorkState.queued := by
    rw [Nat.add_comm]
    show signalN (m + 1) WorkState.idle = WorkState.queued
    simpa [signalN, otTaskletsSignalPending, submitWork] using signalN_queued m
  refine ⟨hq, ?_, rfl, rfl, ?_⟩
  · rw [hq]
    simp [activationsFrom]
  · simp [otTaskletsSignalPending, submitWork, activationsFrom]

/-- C2 witness at a concrete input. -/
theorem signal_coalescing_witness :
    1 ≤ 3 ∧ signalN 3 WorkState.idle = WorkState.queued :=
  ⟨by decide, (signal_coalescing 3 (by decide)).1⟩

/-! ## Worker Loop theorem -/

theorem drainTasklets_bounded (n : Nat) :
    ∀ q : List Tasklet, taskletQueueSize q ≤ n → (drainTasklets q).1 = [] := by
  induction n with
  | zero =>
    intro q h
    match q with
    | [] => simp [drainTasklets]
    | Tasklet.spawn produced :: rest =>
      exfalso
      simp [taskletQueueSize, taskletSize] at h
  | succ m ih =>
    intro q h
    match q with
    | [] => simp [drainTasklets]
    | Tasklet.spawn produced :: rest =>
      simp only [drainTasklets]
      apply ih
      simp only [taskletQueueSize, taskletSize, taskletQueueSize_append] at h ⊢
      omega

theorem drainTasklets_drains (q : List Tasklet) : (drainTasklets q).1 = [] :=
  drainTasklets_bounded (taskletQueueSize q) q (Nat.le_refl _)

/-- C3: a single `openthread_process` pass, for every engine state, performs
exactly: acquire the Gate, some number of pending-work processing steps
(those of the drain loop), exactly one driver-service call, release the
Gate — and at the end of the pass the engine reports no pending work. -/
theorem openthread_process_pass (i : OtInstance) :
    ∃ k, (openthread_process i).2 =
        Call.lockGate :: (List.replicate k Call.taskletStep ++
          [Call.processDrivers, Call.unlockGate]) ∧
      otTaskletsArePending (openthread_process i).1 = false := by
  refine ⟨(drainTasklets i.tasklets).2, rfl, ?_⟩
  simp [openthread_process, otTaskletsArePending, drainTasklets_drains]

end OTShim
